import Mathlib

/-!
Verification of the open-notify API client (`src/lib.rs`, `src/error.rs`).

The repository is a client binding for the open-notify web API.  Its core is
three parse-and-validate operations, each taking a JSON payload and returning
either a typed value or an error:

  * `astro_from_json`          (astronaut manifest),
  * `iss_now_from_json`        (current ISS position),
  * `iss_pass_times_from_json` (ISS pass predictions).

We embed the JSON payloads as a `Json` value tree; the text-to-tree stage of
the `serde_json` collaborator crate is abstracted away, and the derived
`serde` deserializers for the domain structs are embedded faithfully:
a struct deserializes from a JSON object, each declared field is required
unless marked `#[serde(default)]`, a duplicated declared field is an error,
unknown fields are ignored, and integer fields enforce the Rust integer
type's range.  Every deserialization failure is mapped by `From` into a
`Parsing` error, exactly as `serde_json::from_str(data)?` does in the source.
-/

/-- A JSON value.  Numbers are split into integer and floating-point
numerals, matching how `serde_json` deserializes into `i32`/`i64`/`u32`
(integer numerals only, range-checked) versus `f32` (any numeral). -/
inductive Json where
  | null : Json
  | bool (b : Bool) : Json
  | int (n : Int) : Json
  | float (x : Float) : Json
  | str (s : String) : Json
  | arr (elems : List Json) : Json
  | obj (fields : List (String × Json)) : Json

/-- `src/lib.rs` `Person`: a person in space together with the craft they
are in.  Derives `Deserialize, Serialize, PartialEq`. -/
structure Person where
  name : String
  craft : String
deriving DecidableEq, Repr

/-- `src/lib.rs` `Astros`: the astronaut manifest.  `number` is an `i32`
in Rust; the deserializer enforces the `i32` range. -/
structure Astros where
  message : String
  number : Int
  people : List Person
deriving DecidableEq, Repr

/-- `src/lib.rs` `IssPosition`: latitude and longitude kept as strings. -/
structure IssPosition where
  latitude : String
  longitude : String
deriving DecidableEq, Repr

/-- `src/lib.rs` `IssNow`: the current ISS position.  `timestamp` is an
`i64` in Rust. -/
structure IssNow where
  message : String
  timestamp : Int
  iss_position : IssPosition
deriving DecidableEq, Repr

/-- `src/lib.rs` `IssPassTimesRequest`: the echoed request parameters.
`latitude`, `longitude`, `altitude` are `f32`, `passes` is `u32`,
`datetime` is `i64`.  Derives `Default`. -/
structure IssPassTimesRequest where
  latitude : Float
  longitude : Float
  altitude : Float
  passes : Nat
  datetime : Int

/-- Rust `Default` for `IssPassTimesRequest`: every numeric field zero. -/
def IssPassTimesRequest.default : IssPassTimesRequest :=
  { latitude := 0.0, longitude := 0.0, altitude := 0.0, passes := 0, datetime := 0 }

/-- `src/lib.rs` `IssPassTime`: one predicted pass; both fields `i64`. -/
structure IssPassTime where
  risetime : Int
  duration : Int
deriving DecidableEq, Repr

/-- `src/lib.rs` `IssPassTimes`: a pass-prediction response.  `reason`,
`request` and `response` carry `#[serde(default)]`, so their absence is
filled with `""`, `IssPassTimesRequest::default()` and `vec![]`. -/
structure IssPassTimes where
  message : String
  reason : String
  request : IssPassTimesRequest
  response : List IssPassTime

/-- Modelled from the spec: the error taxonomy of §4.3, a closed sum of the
three kinds Network, Parsing and Data, each carrying a message string.
`src/error.rs` in the snapshot holds the string-wrapper draft
`pub struct OpenNotificationError(String)`, which cannot compile together
with `src/lib.rs`: the latter constructs `OpenNotificationError::Data(..)`
and its tests match on `OpenNotificationError::Parsing(_)`.  The enum form
the library code compiles against (spec §4.3, adopted in §9) is embedded
here; the `From` impls route `reqwest` errors to `Network` and
`serde_json` errors to `Parsing`. -/
inductive OpenNotificationError where
  | Network (msg : String) : OpenNotificationError
  | Parsing (msg : String) : OpenNotificationError
  | Data (msg : String) : OpenNotificationError
deriving DecidableEq, Repr

/-- serde: look up a required struct field in the object's entry list.
The derived deserializer errors on a duplicated declared field and on a
missing one; unknown fields are never inspected. -/
def getField (fs : List (String × Json)) (k : String) : Except String Json :=
  match fs.filter (fun p => p.1 == k) with
  | [] => Except.error ("missing field " ++ k)
  | [p] => Except.ok p.2
  | _ => Except.error ("duplicate field " ++ k)

/-- serde: look up a `#[serde(default)]` struct field: absence yields the
default, a duplicate is still an error. -/
def getFieldD (fs : List (String × Json)) (k : String) (d : Json → Except String α)
    (dflt : α) : Except String α :=
  match fs.filter (fun p => p.1 == k) with
  | [] => Except.ok dflt
  | [p] => d p.2
  | _ => Except.error ("duplicate field " ++ k)

/-- serde: deserialize a Rust `String` field. -/
def decodeString : Json → Except String String
  | Json.str s => Except.ok s
  | _ => Except.error "invalid type: expected a string"

/-- serde: deserialize an `i32` field (integer numeral in `i32` range). -/
def decodeI32 : Json → Except String Int
  | Json.int n =>
      if -(2 ^ 31) ≤ n ∧ n < 2 ^ 31 then Except.ok n
      else Except.error "invalid value: integer out of range of i32"
  | _ => Except.error "invalid type: expected i32"

/-- serde: deserialize an `i64` field (integer numeral in `i64` range). -/
def decodeI64 : Json → Except String Int
  | Json.int n =>
      if -(2 ^ 63) ≤ n ∧ n < 2 ^ 63 then Except.ok n
      else Except.error "invalid value: integer out of range of i64"
  | _ => Except.error "invalid type: expected i64"

/-- serde: deserialize a `u32` field (integer numeral in `u32` range). -/
def decodeU32 : Json → Except String Nat
  | Json.int n =>
      if 0 ≤ n ∧ n < 2 ^ 32 then Except.ok n.toNat
      else Except.error "invalid value: integer out of range of u32"
  | _ => Except.error "invalid type: expected u32"

/-- serde: deserialize an `f32` field (any JSON numeral). -/
def decodeF32 : Json → Except String Float
  | Json.int n => Except.ok (Float.ofInt n)
  | Json.float x => Except.ok x
  | _ => Except.error "invalid type: expected f32"

/-- serde: deserialize the elements of a JSON array in order; the first
failing element aborts the whole deserialization. -/
def decodeElems (d : Json → Except String α) : List Json → Except String (List α)
  | [] => Except.ok []
  | x :: xs => do
      let a ← d x
      let rest ← decodeElems d xs
      pure (a :: rest)

/-- serde: deserialize a `Vec<..>` field. -/
def decodeArr (d : Json → Except String α) : Json → Except String (List α)
  | Json.arr xs => decodeElems d xs
  | _ => Except.error "invalid type: expected a sequence"

/-- Derived `Deserialize` for `Person`: both fields required. -/
def decodePerson : Json → Except String Person
  | Json.obj fs => do
      let name ← getField fs "name" >>= decodeString
      let craft ← getField fs "craft" >>= decodeString
      pure { name := name, craft := craft }
  | _ => Except.error "invalid type: expected struct Person"

/-- Derived `Deserialize` for `Astros`: all three fields required. -/
def decodeAstros : Json → Except String Astros
  | Json.obj fs => do
      let message ← getField fs "message" >>= decodeString
      let number ← getField fs "number" >>= decodeI32
      let people ← getField fs "people" >>= decodeArr decodePerson
      pure { message := message, number := number, people := people }
  | _ => Except.error "invalid type: expected struct Astros"

/-- Derived `Deserialize` for `IssPosition`. -/
def decodeIssPosition : Json → Except String IssPosition
  | Json.obj fs => do
      let latitude ← getField fs "latitude" >>= decodeString
      let longitude ← getField fs "longitude" >>= decodeString
      pure { latitude := latitude, longitude := longitude }
  | _ => Except.error "invalid type: expected struct IssPosition"

/-- Derived `Deserialize` for `IssNow`. -/
def decodeIssNow : Json → Except String IssNow
  | Json.obj fs => do
      let message ← getField fs "message" >>= decodeString
      let timestamp ← getField fs "timestamp" >>= decodeI64
      let iss_position ← getField fs "iss_position" >>= decodeIssPosition
      pure { message := message, timestamp := timestamp, iss_position := iss_position }
  | _ => Except.error "invalid type: expected struct IssNow"

/-- Derived `Deserialize` for `IssPassTimesRequest`. -/
def decodeIssPassTimesRequest : Json → Except String IssPassTimesRequest
  | Json.obj fs => do
      let latitude ← getField fs "latitude" >>= decodeF32
      let longitude ← getField fs "longitude" >>= decodeF32
      let altitude ← getField fs "altitude" >>= decodeF32
      let passes ← getField fs "passes" >>= decodeU32
      let datetime ← getField fs "datetime" >>= decodeI64
      pure { latitude := latitude, longitude := longitude, altitude := altitude,
             passes := passes, datetime := datetime }
  | _ => Except.error "invalid type: expected struct IssPassTimesRequest"

/-- Derived `Deserialize` for `IssPassTime`. -/
def decodeIssPassTime : Json → Except String IssPassTime
  | Json.obj fs => do
      let risetime ← getField fs "risetime" >>= decodeI64
      let duration ← getField fs "duration" >>= decodeI64
      pure { risetime := risetime, duration := duration }
  | _ => Except.error "invalid type: expected struct IssPassTime"

/-- Derived `Deserialize` for `IssPassTimes`: `message` required;
`reason`, `request` and `response` are `#[serde(default)]`. -/
def decodeIssPassTimes : Json → Except String IssPassTimes
  | Json.obj fs => do
      let message ← getField fs "message" >>= decodeString
      let reason ← getFieldD fs "reason" decodeString ""
      let request ← getFieldD fs "request" decodeIssPassTimesRequest IssPassTimesRequest.default
      let response ← getFieldD fs "response" (decodeArr decodeIssPassTime) []
      pure { message := message, reason := reason, request := request, response := response }
  | _ => Except.error "invalid type: expected struct IssPassTimes"

/-- Rust `astros.number as usize` on a 64-bit target: the `i32` value taken
modulo `2 ^ 64`. -/
def intAsUsize (n : Int) : Nat := (n % (2 ^ 64 : Int)).toNat

/-- The count-mismatch `Data` error message of `astro_from_json`
(`src/lib.rs:140`). -/
def countMismatchMsg : String :=
  "attribute \x27number\x27 does not match length of people field"

/-- The status-mismatch `Data` error message of `astro_from_json`
(`src/lib.rs:146`): `format!("attribute message indicates no success but {}", m)`. -/
def astroStatusMsg (m : String) : String :=
  "attribute message indicates no success but " ++ m

/-- `src/lib.rs` `astro_from_json`: deserialize (failures become `Parsing`
errors via `From<serde_json::Error>`), then reject a count mismatch, then a
non-`"success"` message, as `Data` errors. -/
def astro_from_json (j : Json) : Except OpenNotificationError Astros :=
  match decodeAstros j with
  | Except.error e => Except.error (OpenNotificationError.Parsing e)
  | Except.ok astros =>
      if intAsUsize astros.number ≠ astros.people.length then
        Except.error (OpenNotificationError.Data countMismatchMsg)
      else if astros.message ≠ "success" then
        Except.error (OpenNotificationError.Data (astroStatusMsg astros.message))
      else Except.ok astros

/-- `src/lib.rs` `iss_now_from_json`: deserialize, then reject a
non-`"success"` message as a `Data` error. -/
def iss_now_from_json (j : Json) : Except OpenNotificationError IssNow :=
  match decodeIssNow j with
  | Except.error e => Except.error (OpenNotificationError.Parsing e)
  | Except.ok iss_now =>
      if iss_now.message ≠ "success" then
        Except.error (OpenNotificationError.Data (astroStatusMsg iss_now.message))
      else Except.ok iss_now

/-- `src/lib.rs` `iss_pass_times_from_json`: deserialize, then on a
non-`"success"` message fail with a `Data` error carrying the `reason`
field verbatim. -/
def iss_pass_times_from_json (j : Json) : Except OpenNotificationError IssPassTimes :=
  match decodeIssPassTimes j with
  | Except.error e => Except.error (OpenNotificationError.Parsing e)
  | Except.ok iss_pass_times =>
      if iss_pass_times.message ≠ "success" then
        Except.error (OpenNotificationError.Data iss_pass_times.reason)
      else Except.ok iss_pass_times

/-- Derived `Serialize` for `Person` (fields in declaration order). -/
def personToJson (p : Person) : Json :=
  Json.obj [("name", Json.str p.name), ("craft", Json.str p.craft)]

/-- Derived `Serialize` for `Astros`. -/
def astrosToJson (a : Astros) : Json :=
  Json.obj [("message", Json.str a.message), ("number", Json.int a.number),
    ("people", Json.arr (a.people.map personToJson))]

/-- Derived `Serialize` for `IssPosition`. -/
def issPositionToJson (p : IssPosition) : Json :=
  Json.obj [("latitude", Json.str p.latitude), ("longitude", Json.str p.longitude)]

/-- Derived `Serialize` for `IssNow`. -/
def issNowToJson (n : IssNow) : Json :=
  Json.obj [("message", Json.str n.message), ("timestamp", Json.int n.timestamp),
    ("iss_position", issPositionToJson n.iss_position)]

/-- Derived `Serialize` for `IssPassTimesRequest`. -/
def issPassTimesRequestToJson (r : IssPassTimesRequest) : Json :=
  Json.obj [("latitude", Json.float r.latitude), ("longitude", Json.float r.longitude),
    ("altitude", Json.float r.altitude), ("passes", Json.int r.passes),
    ("datetime", Json.int r.datetime)]

/-- Derived `Serialize` for `IssPassTime`. -/
def issPassTimeToJson (t : IssPassTime) : Json :=
  Json.obj [("risetime", Json.int t.risetime), ("duration", Json.int t.duration)]

/-- Derived `Serialize` for `IssPassTimes`. -/
def issPassTimesToJson (pt : IssPassTimes) : Json :=
  Json.obj [("message", Json.str pt.message), ("reason", Json.str pt.reason),
    ("request", issPassTimesRequestToJson pt.request),
    ("response", Json.arr (pt.response.map issPassTimeToJson))]

example : decodePerson (personToJson { name := "A", craft := "ISS" }) =
    Except.ok { name := "A", craft := "ISS" } := rfl

example : astro_from_json (Json.obj [("message", Json.str "success"),
    ("number", Json.int 1),
    ("people", Json.arr [Json.obj [("name", Json.str "A"), ("craft", Json.str "ISS")]])]) =
    Except.ok { message := "success", number := 1, people := [{ name := "A", craft := "ISS" }] } := rfl

/-! ### Generic lemmas about `Except` binds -/

theorem errBind {α β : Type} (e : String) (f : α → Except String β) :
    (Except.error e >>= f : Except String β) = Except.error e := rfl

theorem okBind {α β : Type} (a : α) (f : α → Except String β) :
    (Except.ok a >>= f : Except String β) = f a := rfl

theorem bind_ok_inv {α β : Type} {m : Except String α} {f : α → Except String β} {b : β}
    (h : (m >>= f) = Except.ok b) : ∃ a, m = Except.ok a ∧ f a = Except.ok b := by
  cases m with
  | error e => rw [errBind] at h; exact Except.noConfusion h
  | ok a => rw [okBind] at h; exact ⟨a, rfl, h⟩

theorem bindErrOfAll {α β : Type} (m : Except String α) (f : α → Except String β)
    (hf : ∀ a, ∃ e, f a = Except.error e) : ∃ e, (m >>= f) = Except.error e := by
  cases m with
  | error e => exact ⟨e, rfl⟩
  | ok a => rw [okBind]; exact hf a

/-! ### Inversion lemmas for the astronaut-manifest deserializer -/

theorem decodeAstros_ok_inv {j : Json} {a : Astros} (h : decodeAstros j = Except.ok a) :
    ∃ fs, j = Json.obj fs ∧
      (getField fs "message" >>= decodeString) = Except.ok a.message ∧
      (getField fs "number" >>= decodeI32) = Except.ok a.number ∧
      (getField fs "people" >>= decodeArr decodePerson) = Except.ok a.people := by
  cases j with
  | obj fs =>
    refine ⟨fs, rfl, ?_⟩
    simp only [decodeAstros] at h
    obtain ⟨message, hm, h⟩ := bind_ok_inv h
    obtain ⟨number, hn, h⟩ := bind_ok_inv h
    obtain ⟨people, hp, h⟩ := bind_ok_inv h
    obtain rfl := Except.ok.inj h
    exact ⟨hm, hn, hp⟩
  | null => exact Except.noConfusion h
  | bool b => exact Except.noConfusion h
  | int n => exact Except.noConfusion h
  | float x => exact Except.noConfusion h
  | str s => exact Except.noConfusion h
  | arr xs => exact Except.noConfusion h

theorem decodeI32_ok_range {v : Json} {n : Int} (h : decodeI32 v = Except.ok n) :
    -(2 ^ 31) ≤ n ∧ n < 2 ^ 31 := by
  cases v with
  | int m =>
    simp only [decodeI32] at h
    split at h
    · rename_i hc
      obtain rfl := Except.ok.inj h
      exact hc
    · exact Except.noConfusion h
  | null => exact Except.noConfusion h
  | bool b => exact Except.noConfusion h
  | float x => exact Except.noConfusion h
  | str s => exact Except.noConfusion h
  | arr xs => exact Except.noConfusion h
  | obj fs => exact Except.noConfusion h

theorem decodeAstros_number_range {j : Json} {a : Astros} (h : decodeAstros j = Except.ok a) :
    -(2 ^ 31) ≤ a.number ∧ a.number < 2 ^ 31 := by
  obtain ⟨fs, _, _, hn, _⟩ := decodeAstros_ok_inv h
  obtain ⟨v, _, hv⟩ := bind_ok_inv hn
  exact decodeI32_ok_range hv

theorem astro_from_json_of_ok {j : Json} {a : Astros} (h : decodeAstros j = Except.ok a) :
    astro_from_json j =
      if intAsUsize a.number ≠ a.people.length then
        Except.error (OpenNotificationError.Data countMismatchMsg)
      else if a.message ≠ "success" then
        Except.error (OpenNotificationError.Data (astroStatusMsg a.message))
      else Except.ok a := by
  simp only [astro_from_json, h]

theorem intAsUsize_eq_iff {n : Int} {len : Nat} (h1 : -(2 ^ 31) ≤ n) (h2 : n < 2 ^ 31)
    (hlen : (len : Int) < 2 ^ 64 - 2 ^ 31) :
    intAsUsize n = len ↔ n = (len : Int) := by
  unfold intAsUsize
  omega

/-! ### Claim theorems: astronaut manifest validation -/

/-- C1: for every astronaut-manifest payload that deserializes structurally,
`astro_from_json` returns success if and only if the declared count equals
the people-list length and the status field equals `"success"`; on success
the returned manifest's people list has length equal to the declared count,
and on a count mismatch the result is the count-mismatch `Data` error
independently of the status.  The length bound reflects that any people
list an actual payload produces is far below `usize::MAX - i32::MAX`. -/
theorem astro_from_json_success_iff (j : Json) (a : Astros)
    (h : decodeAstros j = Except.ok a)
    (hlen : (a.people.length : Int) < 2 ^ 64 - 2 ^ 31) :
    ((∃ a', astro_from_json j = Except.ok a') ↔
      (a.number = (a.people.length : Int) ∧ a.message = "success")) ∧
    (∀ a', astro_from_json j = Except.ok a' → (a'.people.length : Int) = a'.number) ∧
    (a.number ≠ (a.people.length : Int) →
      astro_from_json j = Except.error (OpenNotificationError.Data countMismatchMsg)) := by
  obtain ⟨hr1, hr2⟩ := decodeAstros_number_range h
  have hiff := intAsUsize_eq_iff hr1 hr2 hlen
  have heq := astro_from_json_of_ok h
  by_cases hcnt : a.number = (a.people.length : Int)
  · have hke : intAsUsize a.number = a.people.length := hiff.mpr hcnt
    rw [if_neg (not_not_intro hke)] at heq
    by_cases hmsg : a.message = "success"
    · rw [if_neg (not_not_intro hmsg)] at heq
      refine ⟨⟨fun _ => ⟨hcnt, hmsg⟩, fun _ => ⟨a, heq⟩⟩, ?_, fun hc => absurd hcnt hc⟩
      intro a' ha'
      rw [heq] at ha'
      obtain rfl := Except.ok.inj ha'
      exact hcnt.symm
    · rw [if_pos hmsg] at heq
      refine ⟨⟨fun hex => ?_, fun hok => absurd hok.2 hmsg⟩, fun a' ha' => ?_,
        fun hc => absurd hcnt hc⟩
      · obtain ⟨a', ha'⟩ := hex
        rw [heq] at ha'
        exact Except.noConfusion ha'
      · rw [heq] at ha'
        exact Except.noConfusion ha'
  · have hke : intAsUsize a.number ≠ a.people.length := fun hc => hcnt (hiff.mp hc)
    rw [if_pos hke] at heq
    refine ⟨⟨fun hex => ?_, fun hok => absurd hok.1 hcnt⟩, fun a' ha' => ?_, fun _ => heq⟩
    · obtain ⟨a', ha'⟩ := hex
      rw [heq] at ha'
      exact Except.noConfusion ha'
    · rw [heq] at ha'
      exact Except.noConfusion ha'

/-- Witness for C1 at the consistent six-person manifest shape of the
repository's own `astro_parse_successful_data` test, shrunk to one person. -/
theorem astro_from_json_success_iff_witness :
    ∃ a', astro_from_json (Json.obj [("message", Json.str "success"),
      ("number", Json.int 1),
      ("people", Json.arr [Json.obj [("name", Json.str "A"), ("craft", Json.str "ISS")]])]) =
      Except.ok a' :=
  ((astro_from_json_success_iff
      (Json.obj [("message", Json.str "success"), ("number", Json.int 1),
        ("people", Json.arr [Json.obj [("name", Json.str "A"), ("craft", Json.str "ISS")]])])
      { message := "success", number := 1, people := [{ name := "A", craft := "ISS" }] }
      rfl (by decide)).1).mpr ⟨by decide, rfl⟩

/-- C3: a payload whose declared count differs from the people-list length
and whose status also differs from `"success"` surfaces the count-mismatch
`Data` error, not the status error: the count check runs first. -/
theorem astro_count_checked_before_status (j : Json) (a : Astros)
    (h : decodeAstros j = Except.ok a)
    (hcnt : a.number ≠ (a.people.length : Int))
    (_hmsg : a.message ≠ "success")
    (hlen : (a.people.length : Int) < 2 ^ 64 - 2 ^ 31) :
    astro_from_json j = Except.error (OpenNotificationError.Data countMismatchMsg) := by
  obtain ⟨hr1, hr2⟩ := decodeAstros_number_range h
  have hke : intAsUsize a.number ≠ a.people.length :=
    fun hc => hcnt ((intAsUsize_eq_iff hr1 hr2 hlen).mp hc)
  rw [astro_from_json_of_ok h, if_pos hke]

/-- Witness for C3: count 1 against an empty people list, status "error". -/
theorem astro_count_checked_before_status_witness :
    astro_from_json (Json.obj [("message", Json.str "error"),
      ("number", Json.int 1), ("people", Json.arr [])]) =
      Except.error (OpenNotificationError.Data countMismatchMsg) :=
  astro_count_checked_before_status _ { message := "error", number := 1, people := [] }
    rfl (by decide) (by decide) (by decide)

/-- C4 counterexample: at the `astro_parse_unsuccessfull_data` shape
(`message = "unsuccess"`, consistent count) the `Data` error's payload is
the formatted sentence, not the literal upstream status string. -/
theorem astro_status_error_not_verbatim :
    astro_from_json (Json.obj [("message", Json.str "unsuccess"),
      ("number", Json.int 0), ("people", Json.arr [])]) =
      Except.error (OpenNotificationError.Data
        "attribute message indicates no success but unsuccess") ∧
    "attribute message indicates no success but unsuccess" ≠ "unsuccess" :=
  ⟨rfl, by decide⟩

/-- C4 amended: a payload with a consistent count but a status other than
`"success"` yields a `Data` error whose message is the fixed prefix
"attribute message indicates no success but " followed by the literal
upstream status string. -/
theorem astro_status_error_message (j : Json) (a : Astros)
    (h : decodeAstros j = Except.ok a)
    (hcnt : a.number = (a.people.length : Int))
    (hmsg : a.message ≠ "success") :
    astro_from_json j =
      Except.error (OpenNotificationError.Data (astroStatusMsg a.message)) := by
  obtain ⟨hr1, hr2⟩ := decodeAstros_number_range h
  have hke : intAsUsize a.number = a.people.length := by
    unfold intAsUsize
    omega
  rw [astro_from_json_of_ok h, if_neg (not_not_intro hke), if_pos hmsg]

/-- Witness for the amended C4 at the counterexample's input. -/
theorem astro_status_error_message_witness :
    astro_from_json (Json.obj [("message", Json.str "unsuccess"),
      ("number", Json.int 0), ("people", Json.arr [])]) =
      Except.error (OpenNotificationError.Data (astroStatusMsg "unsuccess")) :=
  astro_status_error_message _ { message := "unsuccess", number := 0, people := [] }
    rfl (by decide) (by decide)

/-- C9: a structurally valid payload whose `number` field is negative never
parses successfully: `number as usize` reduces the `i32` modulo `2 ^ 64`,
which cannot equal the length of any people list an actual payload can
carry, so the count-mismatch `Data` error is returned. -/
theorem astro_from_json_negative_number (j : Json) (a : Astros)
    (h : decodeAstros j = Except.ok a) (hneg : a.number < 0)
    (hlen : (a.people.length : Int) < 2 ^ 64 - 2 ^ 31) :
    astro_from_json j = Except.error (OpenNotificationError.Data countMismatchMsg) := by
  obtain ⟨hr1, hr2⟩ := decodeAstros_number_range h
  have hke : intAsUsize a.number ≠ a.people.length := by
    unfold intAsUsize
    omega
  rw [astro_from_json_of_ok h, if_pos hke]

/-- Witness for C9: `number = -1` with an empty people list. -/
theorem astro_from_json_negative_number_witness :
    astro_from_json (Json.obj [("message", Json.str "success"),
      ("number", Json.int (-1)), ("people", Json.arr [])]) =
      Except.error (OpenNotificationError.Data countMismatchMsg) :=
  astro_from_json_negative_number _ { message := "success", number := -1, people := [] }
    rfl (by decide) (by decide)

/-! ### Claim theorems: error taxonomy -/

/-- C2: the error type every fetch operation returns is a closed sum of
exactly the three kinds Network, Parsing and Data, each carrying a message
payload, and no error value is of two kinds at once. -/
theorem openNotificationError_closed_sum (e : OpenNotificationError) :
    ((∃ m, e = OpenNotificationError.Network m) ∨
      (∃ m, e = OpenNotificationError.Parsing m) ∨
      (∃ m, e = OpenNotificationError.Data m)) ∧
    ¬ ((∃ m, e = OpenNotificationError.Network m) ∧
        (∃ m, e = OpenNotificationError.Parsing m)) ∧
    ¬ ((∃ m, e = OpenNotificationError.Network m) ∧
        (∃ m, e = OpenNotificationError.Data m)) ∧
    ¬ ((∃ m, e = OpenNotificationError.Parsing m) ∧
        (∃ m, e = OpenNotificationError.Data m)) := by
  cases e <;> refine ⟨?_, ?_, ?_, ?_⟩ <;> simp

/-! ### Claim theorems: structural failures surface as Parsing errors -/

theorem decodePerson_missing_craft {g : List (String × Json)}
    (hcraft : g.filter (fun p => p.1 == "craft") = []) :
    ∃ e, decodePerson (Json.obj g) = Except.error e := by
  simp only [decodePerson]
  apply bindErrOfAll
  intro name
  have hc : getField g "craft" = Except.error ("missing field " ++ "craft") := by
    unfold getField
    rw [hcraft]
  rw [hc, errBind, errBind]
  exact ⟨_, rfl⟩

theorem decodeElems_mem_err {α : Type} (d : Json → Except String α) {xs : List Json} {x : Json}
    (hmem : x ∈ xs) (hx : ∃ e, d x = Except.error e) :
    ∃ e, decodeElems d xs = Except.error e := by
  induction xs with
  | nil => cases hmem
  | cons y ys ih =>
    simp only [decodeElems]
    rcases List.mem_cons.mp hmem with h | h
    · subst h
      obtain ⟨e, he⟩ := hx
      rw [he, errBind]
      exact ⟨e, rfl⟩
    · apply bindErrOfAll
      intro a
      obtain ⟨e, he⟩ := ih h
      rw [he, errBind]
      exact ⟨e, rfl⟩

/-- C5: any manifest payload whose people array contains an element with no
`craft` field fails structurally, so `astro_from_json` returns a `Parsing`
error — never a `Data` error and never success. -/
theorem astro_missing_craft_is_parsing (fs : List (String × Json)) (xs : List Json)
    (g : List (String × Json)) (x : Json)
    (hpeople : getField fs "people" = Except.ok (Json.arr xs))
    (hmem : x ∈ xs) (hx : x = Json.obj g)
    (hcraft : g.filter (fun p => p.1 == "craft") = []) :
    ∃ m, astro_from_json (Json.obj fs) = Except.error (OpenNotificationError.Parsing m) := by
  subst hx
  have hdec : ∃ e, decodeAstros (Json.obj fs) = Except.error e := by
    simp only [decodeAstros]
    apply bindErrOfAll
    intro message
    apply bindErrOfAll
    intro number
    have harr : (getField fs "people" >>= decodeArr decodePerson) =
        decodeElems decodePerson xs := by
      rw [hpeople, okBind]
      rfl
    obtain ⟨e, he⟩ := decodeElems_mem_err decodePerson hmem (decodePerson_missing_craft hcraft)
    rw [harr, he, errBind]
    exact ⟨e, rfl⟩
  obtain ⟨e, he⟩ := hdec
  refine ⟨e, ?_⟩
  simp only [astro_from_json, he]

/-- Witness for C5 at the shape of the repository's
`astro_parse_missing_data` test, shrunk to the offending element. -/
theorem astro_missing_craft_is_parsing_witness :
    ∃ m, astro_from_json (Json.obj [("message", Json.str "success"),
      ("number", Json.int 1),
      ("people", Json.arr [Json.obj [("name", Json.str "Oleg Artemyev")]])]) =
      Except.error (OpenNotificationError.Parsing m) :=
  astro_missing_craft_is_parsing _ _ _ _ rfl (List.Mem.head _) rfl rfl

/-! ### Claim theorems: pass predictions -/

theorem decodeIssPassTimes_ok_inv {fs : List (String × Json)} {pt : IssPassTimes}
    (h : decodeIssPassTimes (Json.obj fs) = Except.ok pt) :
    (getField fs "message" >>= decodeString) = Except.ok pt.message ∧
    getFieldD fs "reason" decodeString "" = Except.ok pt.reason ∧
    getFieldD fs "response" (decodeArr decodeIssPassTime) [] = Except.ok pt.response := by
  simp only [decodeIssPassTimes] at h
  obtain ⟨message, hm, h⟩ := bind_ok_inv h
  obtain ⟨reason, hre, h⟩ := bind_ok_inv h
  obtain ⟨request, hrq, h⟩ := bind_ok_inv h
  obtain ⟨response, hrs, h⟩ := bind_ok_inv h
  obtain rfl := Except.ok.inj h
  exact ⟨hm, hre, hrs⟩

/-- C6: a pass-prediction payload whose status is not `"success"` yields a
`Data` error whose payload is exactly the upstream `reason` field, and the
deserializer fills `reason` with the empty string when the field is absent,
so an omitted reason surfaces as the empty-string payload. -/
theorem iss_pass_times_failure_reason :
    (∀ (j : Json) (pt : IssPassTimes), decodeIssPassTimes j = Except.ok pt →
      pt.message ≠ "success" →
      iss_pass_times_from_json j = Except.error (OpenNotificationError.Data pt.reason)) ∧
    (∀ (fs : List (String × Json)) (pt : IssPassTimes),
      decodeIssPassTimes (Json.obj fs) = Except.ok pt →
      fs.filter (fun p => p.1 == "reason") = [] → pt.reason = "") := by
  constructor
  · intro j pt h hmsg
    simp only [iss_pass_times_from_json, h]
    rw [if_pos hmsg]
  · intro fs pt h hre
    obtain ⟨_, hreason, _⟩ := decodeIssPassTimes_ok_inv h
    unfold getFieldD at hreason
    rw [hre] at hreason
    exact (Except.ok.inj hreason).symm

/-- Witness for C6: status `"error"` with reason `"bad altitude"` surfaces
`"bad altitude"` as the error payload. -/
theorem iss_pass_times_failure_reason_witness :
    iss_pass_times_from_json (Json.obj [("message", Json.str "error"),
      ("reason", Json.str "bad altitude")]) =
      Except.error (OpenNotificationError.Data "bad altitude") :=
  iss_pass_times_failure_reason.1 _
    ⟨"error", "bad altitude", IssPassTimesRequest.default, []⟩ rfl (by decide)

/-- C7: the documented position payload parses successfully, with the
timestamp `1521971230` and the latitude and longitude strings returned
exactly as received, with no numeric conversion. -/
theorem iss_now_from_json_position :
    iss_now_from_json (Json.obj [("iss_position", Json.obj
        [("longitude", Json.str "73.5964"), ("latitude", Json.str "-34.6445")]),
      ("message", Json.str "success"), ("timestamp", Json.int 1521971230)]) =
      Except.ok (⟨"success", 1521971230, ⟨"-34.6445", "73.5964"⟩⟩ : IssNow) := rfl

/-- C10: a pass-prediction payload with status `"success"` that omits the
`reason`, `request` and `response` fields entirely still parses
successfully — their absence is filled by the serde defaults, never a
`Parsing` error — with an empty passes list and an empty reason. -/
theorem iss_pass_times_defaults (fs : List (String × Json))
    (hmsg : fs.filter (fun p => p.1 == "message") = [("message", Json.str "success")])
    (hre : fs.filter (fun p => p.1 == "reason") = [])
    (hrq : fs.filter (fun p => p.1 == "request") = [])
    (hrs : fs.filter (fun p => p.1 == "response") = []) :
    ∃ pt, iss_pass_times_from_json (Json.obj fs) = Except.ok pt ∧
      pt.response = [] ∧ pt.reason = "" := by
  have h1 : getField fs "message" = Except.ok (Json.str "success") := by
    unfold getField
    rw [hmsg]
  have h2 : getFieldD fs "reason" decodeString "" = Except.ok "" := by
    unfold getFieldD
    rw [hre]
  have h3 : getFieldD fs "request" decodeIssPassTimesRequest IssPassTimesRequest.default =
      Except.ok IssPassTimesRequest.default := by
    unfold getFieldD
    rw [hrq]
  have h4 : getFieldD fs "response" (decodeArr decodeIssPassTime) [] = Except.ok [] := by
    unfold getFieldD
    rw [hrs]
  have hdec : decodeIssPassTimes (Json.obj fs) =
      Except.ok (⟨"success", "", IssPassTimesRequest.default, []⟩ : IssPassTimes) := by
    simp only [decodeIssPassTimes, h1, h2, h3, h4, okBind, decodeString]
    rfl
  refine ⟨⟨"success", "", IssPassTimesRequest.default, []⟩, ?_, rfl, rfl⟩
  simp only [iss_pass_times_from_json, hdec]
  rw [if_neg (not_not_intro rfl)]

/-- Witness for C10: only a message field plus an unknown field. -/
theorem iss_pass_times_defaults_witness :
    ∃ pt, iss_pass_times_from_json (Json.obj [("message", Json.str "success"),
      ("unknown", Json.int 7)]) = Except.ok pt ∧ pt.response = [] ∧ pt.reason = "" :=
  iss_pass_times_defaults _ rfl rfl rfl rfl

/-! ### Round-trip: serialize then deserialize -/

theorem decodePerson_personToJson (p : Person) :
    decodePerson (personToJson p) = Except.ok p := rfl

theorem decodeElems_map {α : Type} (d : Json → Except String α) (enc : α → Json)
    (l : List α) (h : ∀ a ∈ l, d (enc a) = Except.ok a) :
    decodeElems d (l.map enc) = Except.ok l := by
  induction l with
  | nil => rfl
  | cons y ys ih =>
    simp only [List.map_cons, decodeElems]
    rw [h y (List.mem_cons_self y ys), okBind,
      ih (fun a ha => h a (List.mem_cons_of_mem y ha)), okBind]
    rfl

theorem decodeI32_int (n : Int) (h1 : -(2 ^ 31) ≤ n) (h2 : n < 2 ^ 31) :
    decodeI32 (Json.int n) = Except.ok n := by
  simp only [decodeI32]
  rw [if_pos ⟨h1, h2⟩]

theorem decodeI64_int (n : Int) (h1 : -(2 ^ 63) ≤ n) (h2 : n < 2 ^ 63) :
    decodeI64 (Json.int n) = Except.ok n := by
  simp only [decodeI64]
  rw [if_pos ⟨h1, h2⟩]

theorem decodeU32_nat (m : Nat) (h : m < 2 ^ 32) :
    decodeU32 (Json.int (m : Int)) = Except.ok m := by
  simp only [decodeU32]
  rw [if_pos ⟨by omega, by omega⟩]
  simp

theorem decodeAstros_astrosToJson (a : Astros)
    (h1 : -(2 ^ 31) ≤ a.number) (h2 : a.number < 2 ^ 31) :
    decodeAstros (astrosToJson a) = Except.ok a := by
  have key : decodeAstros (astrosToJson a) =
      (decodeI32 (Json.int a.number) >>= fun number =>
        decodeElems decodePerson (a.people.map personToJson) >>= fun people =>
          Except.ok (⟨a.message, number, people⟩ : Astros)) := rfl
  rw [key, decodeI32_int a.number h1 h2, okBind,
    decodeElems_map decodePerson personToJson a.people
      (fun p _ => decodePerson_personToJson p), okBind]

theorem decodeIssNow_issNowToJson (n : IssNow)
    (h1 : -(2 ^ 63) ≤ n.timestamp) (h2 : n.timestamp < 2 ^ 63) :
    decodeIssNow (issNowToJson n) = Except.ok n := by
  have key : decodeIssNow (issNowToJson n) =
      (decodeI64 (Json.int n.timestamp) >>= fun timestamp =>
        Except.ok (⟨n.message, timestamp, n.iss_position⟩ : IssNow)) := rfl
  rw [key, decodeI64_int n.timestamp h1 h2, okBind]

theorem decodeIssPassTime_issPassTimeToJson (t : IssPassTime)
    (h1 : -(2 ^ 63) ≤ t.risetime) (h2 : t.risetime < 2 ^ 63)
    (h3 : -(2 ^ 63) ≤ t.duration) (h4 : t.duration < 2 ^ 63) :
    decodeIssPassTime (issPassTimeToJson t) = Except.ok t := by
  have key : decodeIssPassTime (issPassTimeToJson t) =
      (decodeI64 (Json.int t.risetime) >>= fun risetime =>
        decodeI64 (Json.int t.duration) >>= fun duration =>
          Except.ok (⟨risetime, duration⟩ : IssPassTime)) := rfl
  rw [key, decodeI64_int t.risetime h1 h2, okBind, decodeI64_int t.duration h3 h4, okBind]

set_option maxRecDepth 4096

theorem decodeF32_float (x : Float) : decodeF32 (Json.float x) = Except.ok x := rfl

theorem decodeIssPassTimesRequest_fields (la lo al : Float) (np nd : Int) :
    decodeIssPassTimesRequest (Json.obj [("latitude", Json.float la),
      ("longitude", Json.float lo), ("altitude", Json.float al),
      ("passes", Json.int np), ("datetime", Json.int nd)]) =
    (decodeU32 (Json.int np) >>= fun passes =>
      decodeI64 (Json.int nd) >>= fun datetime =>
        Except.ok (⟨la, lo, al, passes, datetime⟩ : IssPassTimesRequest)) := rfl

theorem decodeIssPassTimesRequest_roundtrip (r : IssPassTimesRequest)
    (h1 : r.passes < 2 ^ 32)
    (h2 : -(2 ^ 63) ≤ r.datetime) (h3 : r.datetime < 2 ^ 63) :
    decodeIssPassTimesRequest (issPassTimesRequestToJson r) = Except.ok r := by
  simp only [issPassTimesRequestToJson]
  rw [decodeIssPassTimesRequest_fields, decodeU32_nat r.passes h1, okBind,
    decodeI64_int r.datetime h2 h3, okBind]

theorem decodeIssPassTimes_fields (ms rs : String) (rq : Json) (resp : List Json) :
    decodeIssPassTimes (Json.obj [("message", Json.str ms), ("reason", Json.str rs),
      ("request", rq), ("response", Json.arr resp)]) =
    (decodeIssPassTimesRequest rq >>= fun request =>
      decodeElems decodeIssPassTime resp >>= fun response =>
        Except.ok (⟨ms, rs, request, response⟩ : IssPassTimes)) := rfl

theorem decodeIssPassTimes_roundtrip (pt : IssPassTimes)
    (h1 : pt.request.passes < 2 ^ 32)
    (h2 : -(2 ^ 63) ≤ pt.request.datetime) (h3 : pt.request.datetime < 2 ^ 63)
    (h4 : ∀ t ∈ pt.response, (-(2 ^ 63) ≤ t.risetime ∧ t.risetime < 2 ^ 63) ∧
      (-(2 ^ 63) ≤ t.duration ∧ t.duration < 2 ^ 63)) :
    decodeIssPassTimes (issPassTimesToJson pt) = Except.ok pt := by
  simp only [issPassTimesToJson]
  rw [decodeIssPassTimes_fields, decodeIssPassTimesRequest_roundtrip pt.request h1 h2 h3,
    okBind, decodeElems_map decodeIssPassTime issPassTimeToJson pt.response
      (fun t ht => decodeIssPassTime_issPassTimeToJson t
        (h4 t ht).1.1 (h4 t ht).1.2 (h4 t ht).2.1 (h4 t ht).2.2), okBind]

/-- C8: serialize-then-parse is the identity on validly constructed values:
any `Person`; any `Astros` whose declared count is consistent with its
people list (hence fits `i32`); any `IssNow` whose timestamp fits `i64`;
any `IssPassTimes` whose numeric fields fit their Rust integer types.  The
range hypotheses state exactly what "validly constructed" means in Rust,
where the integer fields carry those machine types. -/
theorem serialize_roundtrip :
    (∀ p : Person, decodePerson (personToJson p) = Except.ok p) ∧
    (∀ a : Astros, a.number = (a.people.length : Int) →
      (a.people.length : Int) < 2 ^ 31 →
      decodeAstros (astrosToJson a) = Except.ok a) ∧
    (∀ n : IssNow, -(2 ^ 63) ≤ n.timestamp → n.timestamp < 2 ^ 63 →
      decodeIssNow (issNowToJson n) = Except.ok n) ∧
    (∀ pt : IssPassTimes, pt.request.passes < 2 ^ 32 →
      -(2 ^ 63) ≤ pt.request.datetime → pt.request.datetime < 2 ^ 63 →
      (∀ t ∈ pt.response, (-(2 ^ 63) ≤ t.risetime ∧ t.risetime < 2 ^ 63) ∧
        (-(2 ^ 63) ≤ t.duration ∧ t.duration < 2 ^ 63)) →
      decodeIssPassTimes (issPassTimesToJson pt) = Except.ok pt) := by
  refine ⟨decodePerson_personToJson, fun a hc hlen => ?_,
    fun n h1 h2 => decodeIssNow_issNowToJson n h1 h2,
    fun pt h1 h2 h3 h4 => decodeIssPassTimes_roundtrip pt h1 h2 h3 h4⟩
  exact decodeAstros_astrosToJson a (by omega) (by omega)

/-- Witness for C8 at one concrete value of each of the four types. -/
theorem serialize_roundtrip_witness :
    decodePerson (personToJson ⟨"Scott Tingle", "ISS"⟩) =
      Except.ok ⟨"Scott Tingle", "ISS"⟩ ∧
    decodeAstros (astrosToJson ⟨"success", 1, [⟨"A", "ISS"⟩]⟩) =
      Except.ok ⟨"success", 1, [⟨"A", "ISS"⟩]⟩ ∧
    decodeIssNow (issNowToJson ⟨"success", 1521971230, ⟨"-34.6445", "73.5964"⟩⟩) =
      Except.ok ⟨"success", 1521971230, ⟨"-34.6445", "73.5964"⟩⟩ ∧
    decodeIssPassTimes (issPassTimesToJson
        ⟨"success", "", IssPassTimesRequest.default, [⟨1, 2⟩]⟩) =
      Except.ok ⟨"success", "", IssPassTimesRequest.default, [⟨1, 2⟩]⟩ :=
  ⟨serialize_roundtrip.1 ⟨"Scott Tingle", "ISS"⟩,
    serialize_roundtrip.2.1 ⟨"success", 1, [⟨"A", "ISS"⟩]⟩ (by decide) (by decide),
    serialize_roundtrip.2.2.1 ⟨"success", 1521971230, ⟨"-34.6445", "73.5964"⟩⟩
      (by decide) (by decide),
    serialize_roundtrip.2.2.2 ⟨"success", "", IssPassTimesRequest.default, [⟨1, 2⟩]⟩
      (by decide) (by decide) (by decide) (by decide)⟩
